import Mathlib

/-!
Shallow embedding of the OctoPrintCommunicator repository
(src/octoprintcommunication.py and src/__main__.py).

Modelling conventions:
  * One `PrinterEnv` per configured device bundles the device's identity and
    credentials (the `OctoPrintClient.__init__` fields) together with the
    behaviour of its controller during the run: what `GET /api/connection`,
    `GET /api/printer` and `POST /api/connection {command: connect}` would
    yield. `none` for a transport field means the HTTP request raises
    `requests.exceptions.ConnectionError` (connection refused / connect
    timeout), which `OctoPrintClient.get`/`post` catch, log, and turn into a
    `None` return value.
  * Python `None`-or-value returns become `Option`; an uncaught Python
    exception becomes `Except.error` carrying a `PyErr`.
  * Log output (`logger.error`) is threaded explicitly: client operations
    return a pair of the Python return value and the list of log messages.
  * JSON numeric leaves (temperatures) are carried as their `str()` rendering,
    because the program only ever interpolates them into strings.
-/

namespace OPC

/-- The body of a successful `GET /api/printer` response: either the literal
textual error `Printer is not operational` (which is not valid JSON), or a
JSON status payload with the fields the program reads. -/
structure StatusPayload where
  printing : Bool
  ready : Bool
  operational : Bool
  pausing : Bool
  paused : Bool
  finishing : Bool
  bedActual : String
  tool0Actual : String
deriving DecidableEq, Repr

inductive PrinterBody
  /-- The controller answered with the plain text `Printer is not operational`. -/
  | notOperationalText
  /-- The controller answered with a JSON status object. -/
  | payload (p : StatusPayload)
deriving DecidableEq, Repr

/-- One device: the `OctoPrintClient` constructor arguments plus the
controller's behaviour during this run. -/
structure PrinterEnv where
  ipAddress : String
  apiKey : String
  username : String
  password : String
  /-- `GET /api/connection`: `none` = ConnectionError (caught by `get`, which
  then returns Python `None`); `some s` = a JSON body whose
  `current.state` field is `s`. -/
  connState : Option String
  /-- `GET /api/printer`: `none` = ConnectionError; `some b` = response body `b`. -/
  printerBody : Option PrinterBody
  /-- `POST /api/connection {command: connect}`: `none` = ConnectionError;
  `some c` = HTTP status code `c`. -/
  connectCode : Option Nat
deriving DecidableEq, Repr

/-- Python exceptions that can escape the embedded functions. -/
inductive PyErr
  | jsonDecodeError
  | typeError
  | indexError
  | csvError
  | attributeError
deriving DecidableEq, Repr

/-- Python truthiness of a `bool`-or-`None` value: `bool(True) = True`,
`bool(False) = False`, `bool(None) = False`. -/
def optBoolTruthy : Option Bool → Bool
  | some b => b
  | none => false

/-- Python `str()` of a `bool`. -/
def pyStrBool : Bool → String
  | true => "True"
  | false => "False"

/-- Python `str()` of a `bool`-or-`None` value: `str(None) = "None"`. -/
def pyStrOptBool : Option Bool → String
  | some b => pyStrBool b
  | none => "None"

/-- Python truthiness of the bound-method object `opc.isPrinterConnected`
(the attribute itself, not a call). A method object defines neither
`__bool__` nor `__len__`, so it is always truthy. `__main__.py` lines 75 and
192 test this attribute without calling it. -/
def boundMethodTruthy : Bool := true

/-- `json.loads` applied to a `GET /api/printer` response body: the plain
text `Printer is not operational` is not valid JSON and raises
`json.JSONDecodeError`; a JSON payload parses back to itself. -/
def jsonLoadsBody : PrinterBody → Except PyErr StatusPayload
  | .notOperationalText => .error .jsonDecodeError
  | .payload p => .ok p

/-- `OctoPrintClient.isPrinterConnected` (octoprintcommunication.py 128-145):
`GET /api/connection`; on a response, `True` iff `current.state` equals
`"Operational"`, else `False`; when `get` returned `None` (ConnectionError),
log and fall through, returning Python `None`.
Result: (return value, log messages); `get` itself logs
`Cannot connect to Raspberry Pi` before returning `None`. -/
def isPrinterConnected (c : PrinterEnv) : Option Bool × List String :=
  match c.connState with
  | some s => if s = "Operational" then (some true, []) else (some false, [])
  | none =>
    (none, ["Cannot connect to Raspberry Pi",
            c.ipAddress ++ " isPrinterConnected response: No connection to Pi"])

/-- `OctoPrintClient.getPrinterStatus` (octoprintcommunication.py 148-165):
`GET /api/printer`; if `get` returned `None`, log and return `None`;
otherwise run `json.loads(r.text)` FIRST (line 159), then compare `r.text`
with `"Printer is not operational"` (line 160). Parsing the payload back is
folded in: `.ok (some p)` stands for returning the JSON text of `p`. -/
def getPrinterStatus (c : PrinterEnv) : Except PyErr (Option StatusPayload) × List String :=
  match c.printerBody with
  | none =>
    (.ok none, ["Cannot connect to Raspberry Pi",
                c.ipAddress ++ " getPrinterStatus response: No connection to Pi"])
  | some b =>
    match jsonLoadsBody b with
    | .error e => (.error e, [])
    | .ok p =>
      match b with
      | .notOperationalText =>
        (.ok none, ["Printer " ++ c.ipAddress ++ " is not operational"])
      | .payload _ => (.ok (some p), [])

/-- `OctoPrintClient.connectToPrinter` (octoprintcommunication.py 96-110):
`POST /api/connection {command: connect}`; return the status code, or log and
return `None` when `post` returned `None`. -/
def connectToPrinter (c : PrinterEnv) : Option Nat × List String :=
  match c.connectCode with
  | some code => (some code, [])
  | none =>
    (none, ["Cannot connect to Raspberry Pi",
            c.ipAddress ++ " ConnectToPrinter response: No connection to Pi"])

/-- HTTP commands the orchestrator can issue to a device, recorded as a trace. -/
inductive Call
  /-- `connectToPrinter`: `POST /api/connection {command: connect}`. -/
  | connect (ip : String)
  /-- `selectPrintJob(gcodePath)`: `POST http://ip+gcodePath {command: select}`. -/
  | select (ip : String) (gcodePath : String)
  /-- `startPrintJob`: `POST /api/job {command: start}`. -/
  | start (ip : String)
deriving DecidableEq, Repr

/-- `connectToPrinters` (__main__.py 69-77): for each client, test
`not opc.isPrinterConnected` — the ATTRIBUTE, not a call, so the condition is
`not` of an always-truthy method object — and issue `connectToPrinter()` when
it holds. Returns the trace of connect calls issued. -/
def connectToPrinters : List PrinterEnv → List Call
  | [] => []
  | c :: rest =>
    if !boundMethodTruthy then Call.connect c.ipAddress :: connectToPrinters rest
    else connectToPrinters rest

/-- The header row written at the top of `PrinterStatus/PrinterStatus.csv` and
of every per-device `printer<i>.txt` (__main__.py line 86). -/
def opcStatusFields : String :=
  "IP;Connected;Printing;Ready;Operational;Pausing;Paused;Finishing;NozzleTemp;BedTemp\n"

/-- The status row built when `printerIsConnected` is truthy
(__main__.py 100-111): flags in source order, then `temperature.bed.actual`,
then `temperature.tool0.actual`. -/
def connectedRow (ip : String) (pic : Option Bool) (p : StatusPayload) : String :=
  ip ++ ";" ++ pyStrOptBool pic ++ ";" ++
  pyStrBool p.printing ++ ";" ++ pyStrBool p.ready ++ ";" ++
  pyStrBool p.operational ++ ";" ++ pyStrBool p.pausing ++ ";" ++
  pyStrBool p.paused ++ ";" ++ pyStrBool p.finishing ++ ";" ++
  p.bedActual ++ ";" ++ p.tool0Actual

/-- The status row built in the `else` branch (__main__.py 114-124):
`str(printerIsConnected)` followed by eight empty fields. -/
def disconnectedRow (ip : String) (pic : Option Bool) : String :=
  ip ++ ";" ++ pyStrOptBool pic ++ ";;;;;;;;"

/-- The body of one iteration of the `updatePrinterStatus` loop
(__main__.py 94-124): call `isPrinterConnected()`; when truthy, call
`getPrinterStatus()` and `json.loads` its result — `json.loads(None)` raises
`TypeError` when the status fetch returned `None` — and build the full row;
otherwise build the empty-fields row. Returns the row (or the uncaught
exception) and the log messages of the iteration. -/
def statusRowFor (c : PrinterEnv) : Except PyErr String × List String :=
  let pc := isPrinterConnected c
  if optBoolTruthy pc.1 then
    let gs := getPrinterStatus c
    match gs.1 with
    | .error e => (.error e, pc.2 ++ gs.2)
    | .ok none => (.error .typeError, pc.2 ++ gs.2)
    | .ok (some p) => (.ok (connectedRow c.ipAddress pc.1 p), pc.2 ++ gs.2)
  else
    (.ok (disconnectedRow c.ipAddress pc.1), pc.2)

/-- The files `updatePrinterStatus` writes: the aggregate
`PrinterStatus/PrinterStatus.csv` content and the per-device
`PrinterStatus/printer<i>.txt` contents (`none` = file absent). -/
structure FS where
  csv : String
  txts : Nat → Option String

/-- The `for i, opc in enumerate(opcs)` loop of `updatePrinterStatus`
(__main__.py 94-129): append each row plus a newline to the CSV and rewrite
`printer<i>.txt` with header plus row; an uncaught exception aborts the loop,
leaving the files as written so far. -/
def updateLoop : List PrinterEnv → Nat → FS → List String → FS × List String × Option PyErr
  | [], _, fs, log => (fs, log, none)
  | c :: rest, i, fs, log =>
    match statusRowFor c with
    | (.error e, l) => (fs, log ++ l, some e)
    | (.ok row, l) =>
      updateLoop rest (i + 1)
        { csv := fs.csv ++ row ++ "\n"
          txts := fun j => if j = i then some (opcStatusFields ++ row) else fs.txts j }
        (log ++ l)

/-- `updatePrinterStatus` (__main__.py 79-136): open the aggregate CSV with
mode `w+` (truncating whatever was there), write the header, then run the
per-device loop. Returns the final file system, the log, and the uncaught
exception if the loop aborted. -/
def updatePrinterStatus (envs : List PrinterEnv) (fs : FS) : FS × List String × Option PyErr :=
  updateLoop envs 0 { csv := opcStatusFields, txts := fs.txts } []

/-- The row the loop iteration for device `c` writes when it does not raise
(spec-side description used to state the output of a successful run). -/
def emittedRow (c : PrinterEnv) : String :=
  match (statusRowFor c).1 with
  | .ok row => row
  | .error _ => ""

/-- The block of rows a fully successful run appends after the header, one
per device in registry order. -/
def rowsBlock : List PrinterEnv → String
  | [] => ""
  | c :: rest => emittedRow c ++ "\n" ++ rowsBlock rest

/-- The three columns `getCommandList` returns: `commandList[0]` = IP
addresses, `commandList[1]` = commands, `commandList[2]` = arguments. -/
structure CommandLists where
  ips : List String
  cmds : List String
  args : List String
deriving DecidableEq, Repr

/-- The command-dispatch loop of the main script (__main__.py 191-197):
for each client, test the attribute `opc.isPrinterConnected` (no call — an
always-truthy method object); then compare `commandList[0][i]` with the
client's IP — a plain Python list index, raising `IndexError` past the end —
then on command `print` issue `selectPrintJob(commandList[2][i])` followed by
`startPrintJob()`. Returns the trace of issued calls and the uncaught
exception, if any. -/
def dispatchGo : List PrinterEnv → Nat → CommandLists → List Call × Option PyErr
  | [], _, _ => ([], none)
  | c :: rest, i, cl =>
    if boundMethodTruthy then
      match cl.ips[i]? with
      | none => ([], some .indexError)
      | some ip =>
        if ip = c.ipAddress then
          match cl.cmds[i]? with
          | none => ([], some .indexError)
          | some cmd =>
            if cmd = "print" then
              match cl.args[i]? with
              | none => ([], some .indexError)
              | some arg =>
                match dispatchGo rest (i + 1) cl with
                | (calls, e) =>
                  (Call.select c.ipAddress arg :: Call.start c.ipAddress :: calls, e)
            else dispatchGo rest (i + 1) cl
        else dispatchGo rest (i + 1) cl
    else dispatchGo rest (i + 1) cl

/-- The command-dispatch phase, started at position 0. -/
def dispatchLoop (envs : List PrinterEnv) (cl : CommandLists) : List Call × Option PyErr :=
  dispatchGo envs 0 cl

/-- The field delimiter of the command CSV. -/
inductive Delim
  | comma
  | semi
deriving DecidableEq, Repr

def Delim.char : Delim → Char
  | .comma => ','
  | .semi => ';'

/-- Split a character list at every occurrence of `sep`; mirrors Python
`str.split` on a one-character separator (the empty input gives one empty
cell). -/
def splitOnChar (sep : Char) : List Char → List (List Char)
  | [] => [[]]
  | c :: cs =>
    match splitOnChar sep cs with
    | [] => [[]]
    | cell :: cells =>
      if c = sep then [] :: cell :: cells else (c :: cell) :: cells

/-- Split a string at every occurrence of the character `sep`. -/
def strSplitOnChar (sep : Char) (s : String) : List String :=
  (splitOnChar sep s.data).map String.mk

/-- Split one CSV line into cells with the given delimiter (the inputs here
use no quoting, so plain splitting matches `csv.reader` / pandas). -/
def splitRow (d : Delim) (line : String) : List String :=
  strSplitOnChar d.char line

/-- The delimiter-detection prologue of `getCommandList` (__main__.py
144-160). `csv.reader(csvfile)` uses the DEFAULT comma delimiter, so
`csvDataList[0][0]` is the first line up to its first comma: the line
`sep=;` stays whole, but the line `sep=,` is split into `sep=` and an empty
cell, so the `elif` on line 153 never matches it. In the `else` branch,
`csvfile.read(1024)` returns the empty string — `list(csv.reader(csvfile))`
already consumed the file — and `csv.Sniffer().sniff` of an empty sample
raises `csv.Error` (it cannot determine a delimiter). On an empty file,
`csvDataList[0]` raises `IndexError`. Returns the delimiter and the pandas
`header` row index. -/
def getCommandListDelim (lines : List String) : Except PyErr (Delim × Nat) :=
  match lines with
  | [] => .error .indexError
  | l0 :: _ =>
    match strSplitOnChar ',' l0 with
    | [] => .error .indexError
    | c0 :: _ =>
      if c0 = "sep=;" then .ok (.semi, 1)
      else if c0 = "sep=," then .ok (.comma, 1)
      else .error .csvError

/-- `getCommandList` (__main__.py 138-173): detect the delimiter, then read
the file with pandas using row `header` as the header row and take the
columns `IP_Address`, `Command`, `Argument` (a missing column raises
`AttributeError`; a file with no header row raises pandas EmptyDataError,
folded into `csvError`). -/
def getCommandList (lines : List String) : Except PyErr CommandLists :=
  match getCommandListDelim lines with
  | .error e => .error e
  | .ok (d, h) =>
    match lines.drop h with
    | [] => .error .csvError
    | headerLine :: dataLines =>
      if splitRow d headerLine = ["IP_Address", "Command", "Argument"] then
        .ok { ips := (dataLines.map (splitRow d)).map (fun r => r.getD 0 "")
              cmds := (dataLines.map (splitRow d)).map (fun r => r.getD 1 "")
              args := (dataLines.map (splitRow d)).map (fun r => r.getD 2 "") }
      else .error .attributeError

/-! Concrete devices and file systems used to evaluate the claims. -/

/-- A device whose controller is unreachable on every endpoint. -/
def cUnreach : PrinterEnv :=
  ⟨"10.0.0.5", "K1", "u", "p", none, none, none⟩

/-- The §8 end-to-end device: state `Operational`, flags
`printing=false, ready=true, operational=true, pausing=false, paused=false,
finishing=false`, `bed.actual=60.2`, `tool0.actual=210.0`. -/
def cOperational : PrinterEnv :=
  ⟨"10.0.0.5", "K1", "u", "p", some "Operational",
   some (.payload ⟨false, true, true, false, false, false, "60.2", "210.0"⟩),
   some 204⟩

/-- A reachable device whose serial connection is closed
(`current.state = "Closed"`). -/
def cClosed : PrinterEnv :=
  ⟨"10.0.0.6", "K2", "u", "p", some "Closed", none, some 204⟩

/-- A device whose connection poll reports `Operational` but whose
`/api/printer` request then fails with a ConnectionError. -/
def cStatusFails : PrinterEnv :=
  ⟨"10.0.0.7", "K3", "u", "p", some "Operational", none, some 204⟩

/-- A device whose `/api/printer` request answers with the plain text
`Printer is not operational`. -/
def cNotOperationalText : PrinterEnv :=
  ⟨"10.0.0.8", "K4", "u", "p", some "Operational", some .notOperationalText, some 204⟩

/-- A file system holding stale content from an earlier cycle. -/
def fsStale : FS :=
  ⟨"OLD CONTENT", fun _ => some "STALE"⟩

/-! Helper lemmas. -/

theorem strAppendAssoc (a b c : String) : a ++ b ++ c = a ++ (b ++ c) := by
  rcases a with ⟨la⟩
  rcases b with ⟨lb⟩
  rcases c with ⟨lc⟩
  show String.mk (la ++ lb ++ lc) = String.mk (la ++ (lb ++ lc))
  rw [List.append_assoc]

/-- If the loop finished without an exception, the CSV holds its initial
content followed by one row plus newline per device, in list order. -/
theorem updateLoop_ok_csv (envs : List PrinterEnv) :
    ∀ (i : Nat) (fs : FS) (log : List String),
      (updateLoop envs i fs log).2.2 = none →
      (updateLoop envs i fs log).1.csv = fs.csv ++ rowsBlock envs := by
  induction envs with
  | nil =>
    intro i fs log _
    rcases fs with ⟨csv, txts⟩
    simp [updateLoop, rowsBlock]
  | cons c rest ih =>
    intro i fs log h
    rcases hsr : statusRowFor c with ⟨res, l⟩
    cases res with
    | error e =>
      exfalso
      simp [updateLoop, hsr] at h
    | ok row =>
      simp only [updateLoop, hsr] at h ⊢
      rw [ih _ _ _ h]
      simp only [rowsBlock, emittedRow, hsr]
      rw [strAppendAssoc, strAppendAssoc, strAppendAssoc row]

/-- Iterations at positions `≥ i` never touch `printer<j>.txt` for `j < i`. -/
theorem updateLoop_txts_frame (envs : List PrinterEnv) :
    ∀ (i : Nat) (fs : FS) (log : List String) (j : Nat), j < i →
      (updateLoop envs i fs log).1.txts j = fs.txts j := by
  induction envs with
  | nil =>
    intro i fs log j _
    simp [updateLoop]
  | cons c rest ih =>
    intro i fs log j hj
    rcases hsr : statusRowFor c with ⟨res, l⟩
    cases res with
    | error e => simp [updateLoop, hsr]
    | ok row =>
      simp only [updateLoop, hsr]
      rw [ih (i + 1) _ _ j (Nat.lt_succ_of_lt hj)]
      simp [Nat.ne_of_lt hj]

/-- If the loop finished without an exception, `printer<i+k>.txt` holds the
header plus the row of the `k`-th remaining device. -/
theorem updateLoop_ok_txts (envs : List PrinterEnv) :
    ∀ (i : Nat) (fs : FS) (log : List String),
      (updateLoop envs i fs log).2.2 = none →
      ∀ (k : Nat) (hk : k < envs.length),
        (updateLoop envs i fs log).1.txts (i + k) =
          some (opcStatusFields ++ emittedRow (envs.get ⟨k, hk⟩)) := by
  induction envs with
  | nil =>
    intro i fs log _ k hk
    exact absurd hk (Nat.not_lt_zero k)
  | cons c rest ih =>
    intro i fs log h k hk
    rcases hsr : statusRowFor c with ⟨res, l⟩
    cases res with
    | error e =>
      exfalso
      simp [updateLoop, hsr] at h
    | ok row =>
      simp only [updateLoop, hsr] at h ⊢
      cases k with
      | zero =>
        rw [updateLoop_txts_frame rest (i + 1) _ _ (i + 0) (by omega)]
        simp [emittedRow, hsr]
      | succ k0 =>
        have hk0 : k0 < rest.length := Nat.lt_of_succ_lt_succ hk
        have := ih (i + 1) _ _ h k0 hk0
        rw [show i + (k0 + 1) = i + 1 + k0 by omega]
        exact this

/-- Rendering of the empty-fields row when the poll returned Python `None`. -/
theorem disconnectedRow_none (ip : String) :
    disconnectedRow ip none = ip ++ ";None;;;;;;;;" := by
  show ip ++ ";" ++ "None" ++ ";;;;;;;;" = ip ++ ";None;;;;;;;;"
  rw [strAppendAssoc, strAppendAssoc]
  rfl

/-- On an unreachable device the loop body produces the `None` row and the
two log messages of `get` and `isPrinterConnected`. -/
theorem statusRowFor_unreachable (c : PrinterEnv) (h : c.connState = none) :
    statusRowFor c =
      (.ok (c.ipAddress ++ ";None;;;;;;;;"),
       ["Cannot connect to Raspberry Pi",
        c.ipAddress ++ " isPrinterConnected response: No connection to Pi"]) := by
  simp [statusRowFor, isPrinterConnected, h, optBoolTruthy, disconnectedRow_none]

/-- Positions at or past the end of the command list make the dispatch loop
abort with `IndexError`, whatever the guards did earlier. -/
theorem dispatchGo_short_list (envs : List PrinterEnv) :
    ∀ (i : Nat) (cl : CommandLists),
      cl.ips.length < i + envs.length → i ≤ cl.ips.length →
      (dispatchGo envs i cl).2 = some PyErr.indexError := by
  induction envs with
  | nil =>
    intro i cl h1 h2
    rw [List.length_nil] at h1
    omega
  | cons c rest ih =>
    intro i cl h1 h2
    rw [List.length_cons] at h1
    simp only [dispatchGo, boundMethodTruthy, if_true]
    split
    next => rfl
    next ip hip =>
      obtain ⟨hi, -⟩ := List.getElem?_eq_some.mp hip
      split
      next =>
        split
        next => rfl
        next cmd hcmd =>
          split
          next =>
            split
            next => rfl
            next arg harg => exact ih (i + 1) cl (by omega) (by omega)
          next => exact ih (i + 1) cl (by omega) (by omega)
      next => exact ih (i + 1) cl (by omega) (by omega)

/-! The claims. -/

/-- C1: the claim says `selectPrintJob`/`startPrintJob` are issued for a
device only when its just-polled status is Connected, and in particular that
a `print` command for a Disconnected device produces no calls. The code
(__main__.py line 192) tests the attribute `opc.isPrinterConnected` without
calling it; a bound method is always truthy, so the guard never blocks:
a device whose poll reports Disconnected (`current.state = "Closed"`) still
receives both calls when the command at its position matches. -/
theorem dispatch_issues_calls_to_disconnected_device :
    (isPrinterConnected cClosed).1 = some false ∧
    dispatchLoop [cClosed] ⟨["10.0.0.6"], ["print"], ["/api/files/local/a.gcode"]⟩ =
      ([Call.select "10.0.0.6" "/api/files/local/a.gcode", Call.start "10.0.0.6"], none) :=
  ⟨rfl, rfl⟩

/-- C2: `isPrinterConnected` maps a response whose `current.state` is
`"Operational"` to `some true` (Connected), any other reported state to
`some false` (Disconnected), and a transport failure to `none`
(Unreachable); being a total function into `Option Bool`, it returns in all
three cases without raising. -/
theorem isPrinterConnected_classifies (c : PrinterEnv) :
    (c.connState = some "Operational" → (isPrinterConnected c).1 = some true) ∧
    (∀ s, c.connState = some s → s ≠ "Operational" →
      (isPrinterConnected c).1 = some false) ∧
    (c.connState = none → (isPrinterConnected c).1 = none) := by
  refine ⟨fun h => ?_, fun s hs hne => ?_, fun h => ?_⟩
  · simp [isPrinterConnected, h]
  · simp [isPrinterConnected, hs, hne]
  · simp [isPrinterConnected, h]

/-- Witness: the three cases of C2 at concrete devices. -/
theorem isPrinterConnected_classifies_witness :
    (isPrinterConnected cOperational).1 = some true ∧
    (isPrinterConnected cClosed).1 = some false ∧
    (isPrinterConnected cUnreach).1 = none :=
  ⟨(isPrinterConnected_classifies cOperational).1 rfl,
   (isPrinterConnected_classifies cClosed).2.1 "Closed" rfl (by decide),
   (isPrinterConnected_classifies cUnreach).2.2 rfl⟩

/-- C3: the claim says that on the body `Printer is not operational`,
`getPrinterStatus` logs and returns an absent result without any exception
escaping. The code runs `json.loads(r.text)` (line 159) BEFORE the string
comparison on line 160; that body is not valid JSON, so `json.JSONDecodeError`
propagates out of the call and the logging branch is dead: nothing is
logged and no value is returned. -/
theorem getPrinterStatus_raises_on_not_operational_text :
    (getPrinterStatus cNotOperationalText).1 = .error PyErr.jsonDecodeError ∧
    (getPrinterStatus cNotOperationalText).2 = [] :=
  ⟨rfl, rfl⟩

/-- Counterexample to C4: a registry of two devices in which the first polls
Connected but its status fetch then fails (ConnectionError), so
`getPrinterStatus` returns Python `None` and `json.loads(None)` raises
`TypeError`: the run aborts with the CSV holding the header and zero rows
instead of two. -/
theorem status_phase_aborts_counterexample :
    (updatePrinterStatus [cStatusFails, cClosed] fsStale).2.2 = some PyErr.typeError ∧
    (updatePrinterStatus [cStatusFails, cClosed] fsStale).1.csv = opcStatusFields :=
  ⟨rfl, rfl⟩

/-- C4 (amended): a run of the status phase that raises no exception emits
exactly one row per device, in registry order (`rowsBlock` is the ordered
per-device row block); a device whose status fetch fails after a Connected
poll instead aborts the cycle, as the counterexample shows. -/
theorem status_phase_rows_on_success (envs : List PrinterEnv) (fs : FS)
    (h : (updatePrinterStatus envs fs).2.2 = none) :
    (updatePrinterStatus envs fs).1.csv = opcStatusFields ++ rowsBlock envs ∧
    (envs.map emittedRow).length = envs.length := by
  refine ⟨updateLoop_ok_csv envs 0 ⟨opcStatusFields, fs.txts⟩ [] h, ?_⟩
  exact List.length_map _ _

/-- Witness for the amended C4 on a one-device registry that stays
disconnected: the run succeeds and writes the header plus its row block. -/
theorem status_phase_rows_on_success_witness :
    (updatePrinterStatus [cClosed] fsStale).1.csv = opcStatusFields ++ rowsBlock [cClosed] :=
  (status_phase_rows_on_success [cClosed] fsStale rfl).1

/-- C5: the claim says the connect phase issues `connectToPrinter()` for
every device not already Connected. The code (__main__.py line 75) tests
`not opc.isPrinterConnected` on the attribute — an always-truthy bound
method — so the condition is always false and NO device ever receives a
connect call, connected or not. -/
theorem connect_phase_issues_no_calls (envs : List PrinterEnv) :
    connectToPrinters envs = [] := by
  induction envs with
  | nil => rfl
  | cons c rest ih => simpa [connectToPrinters, boundMethodTruthy] using ih

/-- Counterexample to C6: for the unreachable device `10.0.0.5` the status
phase writes the row `10.0.0.5;None;;;;;;;;` — `str(None)`, because
`isPrinterConnected` returned Python `None` — not the claimed
`10.0.0.5;False;;;;;;;;`. -/
theorem unreachable_row_counterexample :
    (updatePrinterStatus [cUnreach] fsStale).1.csv =
      "IP;Connected;Printing;Ready;Operational;Pausing;Paused;Finishing;NozzleTemp;BedTemp\n10.0.0.5;None;;;;;;;;\n" ∧
    (updatePrinterStatus [cUnreach] fsStale).1.csv ≠
      "IP;Connected;Printing;Ready;Operational;Pausing;Paused;Finishing;NozzleTemp;BedTemp\n10.0.0.5;False;;;;;;;;\n" := by
  refine ⟨rfl, ?_⟩
  decide

/-- C6 (amended): an unreachable device's status row is
`<ip>;None;;;;;;;;` — the Connected field renders as `None`
(the Python `None` returned by `isPrinterConnected`), with the eight
remaining fields empty — and a transport error naming the device's IP is
logged. -/
theorem unreachable_row_renders_none (c : PrinterEnv) (fs : FS)
    (h : c.connState = none) :
    (statusRowFor c).1 = .ok (c.ipAddress ++ ";None;;;;;;;;") ∧
    (updatePrinterStatus [c] fs).1.csv =
      opcStatusFields ++ (c.ipAddress ++ ";None;;;;;;;;") ++ "\n" ∧
    (c.ipAddress ++ " isPrinterConnected response: No connection to Pi") ∈
      (updatePrinterStatus [c] fs).2.1 := by
  have hfull := statusRowFor_unreachable c h
  refine ⟨by rw [hfull], ?_, ?_⟩
  · simp [updatePrinterStatus, updateLoop, hfull]
  · simp [updatePrinterStatus, updateLoop, hfull]

/-- Witness: the amended C6 applied to the concrete unreachable device. -/
theorem unreachable_row_renders_none_witness :
    (statusRowFor cUnreach).1 = .ok (cUnreach.ipAddress ++ ";None;;;;;;;;") :=
  (unreachable_row_renders_none cUnreach fsStale rfl).1

/-- C7: the §8 end-to-end scenario: one device at `10.0.0.5` reporting
`Operational` with flags `printing=false, ready=true, operational=true,
pausing=false, paused=false, finishing=false` and `bed.actual=60.2`,
`tool0.actual=210.0` yields exactly the row
`10.0.0.5;True;False;True;True;False;False;False;60.2;210.0` (flags in that
order, then bed, then tool0 — n.b. in the positions the header calls
NozzleTemp and BedTemp), and the run finishes without an exception. -/
theorem operational_device_row :
    (updatePrinterStatus [cOperational] fsStale).1.csv =
      "IP;Connected;Printing;Ready;Operational;Pausing;Paused;Finishing;NozzleTemp;BedTemp\n10.0.0.5;True;False;True;True;False;False;False;60.2;210.0\n" ∧
    (updatePrinterStatus [cOperational] fsStale).2.2 = none :=
  ⟨rfl, rfl⟩

/-- C8: the claim says the markers `sep=;` and `sep=,` are honored
equivalently. In the code, `csv.reader` (default comma delimiter) splits the
line `sep=,` at its comma, so `csvDataList[0][0]` is `sep=` and neither
marker branch matches; the fallback then calls `csv.Sniffer().sniff` on
`csvfile.read(1024)` — an empty string, the reader already consumed the
file — which raises `csv.Error`. The `sep=;` marker works as claimed; the
`sep=,` marker makes `getCommandList` raise. -/
theorem sep_comma_marker_raises :
    getCommandList ["sep=;", "IP_Address;Command;Argument",
                    "10.0.0.5;print;/api/files/local/a.gcode"] =
      .ok ⟨["10.0.0.5"], ["print"], ["/api/files/local/a.gcode"]⟩ ∧
    getCommandList ["sep=,", "IP_Address,Command,Argument",
                    "10.0.0.5,print,/api/files/local/a.gcode"] =
      .error PyErr.csvError :=
  ⟨rfl, rfl⟩

/-- C9: when `getCommandList` returns fewer records than there are clients,
the dispatch loop reaches the first position past the end of
`commandList[0]` — the always-truthy attribute guard never blocks — and the
list index raises an uncaught `IndexError`, aborting dispatch for all
remaining devices. -/
theorem dispatch_aborts_on_short_command_list (envs : List PrinterEnv)
    (cl : CommandLists) (h : cl.ips.length < envs.length) :
    (dispatchLoop envs cl).2 = some PyErr.indexError :=
  dispatchGo_short_list envs 0 cl (by omega) (Nat.zero_le _)

/-- Witness: C9 on a one-device registry with an empty command list. -/
theorem dispatch_aborts_on_short_command_list_witness :
    (dispatchLoop [cOperational] ⟨[], [], []⟩).2 = some PyErr.indexError :=
  dispatch_aborts_on_short_command_list [cOperational] ⟨[], [], []⟩ (by decide)

/-- Counterexample to C10: an invocation of `updatePrinterStatus` that
aborts — here a one-device registry whose device polls Connected but whose
status fetch fails, so `json.loads(None)` raises `TypeError` before the
per-device write — rewrites no `printer<i>.txt` at all: the stale file from
an earlier cycle persists, so it does not contain the header plus that
device's current row as the claim states for every invocation. -/
theorem aborting_run_leaves_stale_txt :
    (updatePrinterStatus [cStatusFails] fsStale).2.2 = some PyErr.typeError ∧
    (updatePrinterStatus [cStatusFails] fsStale).1.txts 0 = some "STALE" ∧
    some "STALE" ≠ some (opcStatusFields ++ emittedRow cStatusFails) := by
  refine ⟨rfl, rfl, ?_⟩
  decide

/-- C10 (amended): an invocation of `updatePrinterStatus` that completes
without an exception leaves the aggregate CSV holding exactly the header
plus the current cycle's rows — whatever `fs.csv` held before is gone, since
the file is opened with mode `w+` — and leaves `printer<k>.txt` holding
exactly the header plus device `k`'s current row. An invocation that aborts
mid-loop still truncates the aggregate CSV but rewrites `printer<i>.txt`
only for the devices before the failing one; later per-device files keep
their stale content, as the counterexample shows. -/
theorem updatePrinterStatus_truncates_and_rewrites (envs : List PrinterEnv)
    (fs : FS) (h : (updatePrinterStatus envs fs).2.2 = none) :
    (updatePrinterStatus envs fs).1.csv = opcStatusFields ++ rowsBlock envs ∧
    ∀ (k : Nat) (hk : k < envs.length),
      (updatePrinterStatus envs fs).1.txts k =
        some (opcStatusFields ++ emittedRow (envs.get ⟨k, hk⟩)) := by
  refine ⟨updateLoop_ok_csv envs 0 ⟨opcStatusFields, fs.txts⟩ [] h, ?_⟩
  intro k hk
  have hk2 := updateLoop_ok_txts envs 0 ⟨opcStatusFields, fs.txts⟩ [] h k hk
  simpa using hk2

/-- Witness: C10 on the one-device Operational registry over a stale file
system. -/
theorem updatePrinterStatus_truncates_and_rewrites_witness :
    (updatePrinterStatus [cOperational] fsStale).1.csv =
      opcStatusFields ++ rowsBlock [cOperational] :=
  (updatePrinterStatus_truncates_and_rewrites [cOperational] fsStale rfl).1

end OPC
